import Mathlib

/-
Verification of the DevDriver Windows user-mode platform layer
(src/shared/gpuopen/core/src/platforms/ddcWinPlatform.cpp).

The C++ code is shallowly embedded: OS calls are modelled by passing their
outcomes as explicit arguments (oracles), machine integers by `Int` with
explicit two's-complement wrapping, handles and pointers by `Option Nat`
(`none` = NULL), and each stateful method returns its result together with
the updated object state.
-/

set_option linter.unusedVariables false

namespace DevDriver

/-- Embedding of the `DevDriver::Result` enum, restricted to the values used
by the platform layer (taxonomy from the error-handling design). -/
inductive Result where
  | Success
  | Error
  | NotReady
  | Unavailable
  | InvalidParameter
  | FileNotFound
  | FileIoError
  deriving DecidableEq, Repr

/-- Windows `WAIT_OBJECT_0` wait status. -/
def WAIT_OBJECT_0 : Nat := 0

/-- Windows `WAIT_TIMEOUT` wait status (0x102). -/
def WAIT_TIMEOUT : Nat := 258

/-- Windows `WAIT_FAILED` wait status (0xFFFFFFFF). -/
def WAIT_FAILED : Nat := 4294967295

/-- Windows `ERROR_ALREADY_EXISTS` last-error code (183). -/
def ERROR_ALREADY_EXISTS : Nat := 183

/-- Embedding of `WaitObject(hObject, millisecTimeout)`. The `status`
argument is the DWORD the OS call `WaitForSingleObject(hObject,
millisecTimeout)` returned. The switch maps `WAIT_OBJECT_0` to `Success`,
`WAIT_TIMEOUT` to `NotReady`, and leaves the initial `Result::Error` for
`WAIT_FAILED` (after logging and asserting) and for the default case. -/
def WaitObject (status : Nat) (millisecTimeout : Nat) : Result :=
  if status = WAIT_OBJECT_0 then Result.Success
  else if status = WAIT_TIMEOUT then Result.NotReady
  else Result.Error

/-- Embedding of `Event` (the OS event handle value). `Event::Wait` simply
forwards to `WaitObject` on the handle. -/
structure Event where
  m_event : Nat
  deriving DecidableEq, Repr

/-- Embedding of `Event::Wait(timeoutInMs)`: returns
`WaitObject(m_event, timeoutInMs)`. `osStatus` is the status the OS wait
call produced for the event handle. -/
def Event.Wait (e : Event) (timeoutInMs : Nat) (osStatus : Nat) : Result :=
  WaitObject osStatus timeoutInMs

/-- Embedding of `Semaphore` (the OS semaphore handle value). -/
structure Semaphore where
  m_semaphore : Nat
  deriving DecidableEq, Repr

/-- Embedding of `Semaphore::Wait(millisecTimeout)`: returns
`WaitObject(m_semaphore, millisecTimeout)`. `osStatus` is the status the OS
wait call produced for the semaphore handle. -/
def Semaphore.Wait (s : Semaphore) (millisecTimeout : Nat) (osStatus : Nat) : Result :=
  WaitObject osStatus millisecTimeout

/-! ### Atomic integer operations

The MSVC interlocked intrinsics operate on two's-complement 32/64-bit
integers; `wrap32`/`wrap64` reduce a mathematical integer to the
representable range `[-2^31, 2^31)` resp. `[-2^63, 2^63)`. Each operation
stores the wrapped sum and returns the value after the operation (stored
value and returned value coincide). -/

/-- Two's-complement wrap to the signed 32-bit range `[-2^31, 2^31)`. -/
def wrap32 (x : Int) : Int := (x + 2 ^ 31) % 2 ^ 32 - 2 ^ 31

/-- Two's-complement wrap to the signed 64-bit range `[-2^63, 2^63)`. -/
def wrap64 (x : Int) : Int := (x + 2 ^ 63) % 2 ^ 64 - 2 ^ 63

/-- Embedding of `AtomicAdd(Atomic*, int32)`: `InterlockedAdd(pVariable,
num)` stores the wrapped sum and returns it (the value after the add). -/
def AtomicAdd32 (v num : Int) : Int := wrap32 (v + num)

/-- Embedding of `AtomicSubtract(Atomic*, int32)`: the source computes
`InterlockedAdd(pVariable, -static_cast<long>(num))`; the 32-bit negation
itself wraps (relevant when `num` is `INT32_MIN`). -/
def AtomicSubtract32 (v num : Int) : Int := AtomicAdd32 v (wrap32 (-num))

/-- Embedding of `AtomicAdd(Atomic64*, int64)` via `InterlockedAdd64`. -/
def AtomicAdd64 (v num : Int) : Int := wrap64 (v + num)

/-- Embedding of `AtomicSubtract(Atomic64*, int64)`: the source computes
`InterlockedAdd64(pVariable, -static_cast<LONG64>(num))`; the 64-bit
negation itself wraps (relevant when `num` is `INT64_MIN`). -/
def AtomicSubtract64 (v num : Int) : Int := AtomicAdd64 v (wrap64 (-num))

/-- Model of the MSVC `InterlockedCompareExchange(destination, exchangeVal,
comparand)` intrinsic on a single word: if the destination equals the
comparand it is set to `exchangeVal`, otherwise left unchanged; the
intrinsic returns the initial (observed prior) value. The result pair is
(new stored value, observed prior value). -/
def InterlockedCompareExchange (destination exchangeVal comparand : Int) : Int × Int :=
  if destination = comparand then (exchangeVal, destination) else (destination, destination)

/-- Embedding of `AtomicLock`: a single word, 0 = unlocked, 1 = locked. -/
structure AtomicLock where
  m_lock : Int
  deriving DecidableEq, Repr

/-- Embedding of `AtomicLock::Unlock()`:
`InterlockedCompareExchangeRelease(&m_lock, 0, 1)` attempts the 1 → 0
transition; if the observed prior value is 0 the code fires
`DD_ASSERT_REASON` (the returned Bool records whether that fatal
diagnostic fired). -/
def AtomicLock.Unlock (l : AtomicLock) : AtomicLock × Bool :=
  let r := InterlockedCompareExchange l.m_lock 0 1
  (⟨r.1⟩, r.2 == 0)

/-- Embedding of `Windows::ReleaseFastLock(Atomic*)`: same compare-exchange
as `AtomicLock::Unlock`, but an observed prior value of 0 yields
`Result::Error` instead of an assertion. The pair is (result, new word). -/
def ReleaseFastLock (mutex : Int) : Result × Int :=
  let r := InterlockedCompareExchange mutex 0 1
  (if r.2 = 0 then Result.Error else Result.Success, r.1)

/-! ### Thread lifecycle

`Thread` owns an OS execution handle (`hThread`, `none` = NULL), the
user entry-function pointer and its parameter. The private completion
event `onExit` is consulted only through its wait status, which `Join`
receives as an oracle. -/

/-- Embedding of the `Thread` object's state: execution handle, entry
function pointer and opaque parameter pointer (pointers as `Option Nat`
with `none` = null). -/
structure Thread where
  hThread : Option Nat
  pFnFunction : Option Nat
  pParameter : Nat
  deriving DecidableEq, Repr

/-- Embedding of `Thread::IsJoinable()`: `return (hThread != NULL)`. -/
def Thread.IsJoinable (t : Thread) : Bool := t.hThread.isSome

/-- Modelled from the spec: `Thread::Reset` is declared in the platform
header, which is not under src/. Per the spec, a successful `Join`
"releases the handle and resets state to unstarted (enabling reuse)", and
the call site comments "Erase our handle now to avoid double-joining";
so `Reset` clears the execution handle. -/
def Thread.Reset (t : Thread) : Thread := { t with hThread := none }

/-- Embedding of `Thread::Start(pFnThreadFunc, pThreadParameter)`. The
guard requires no live handle and a non-null entry function; only then are
the parameter and function stored and `CreateThread` called.
`osThreadHandle` is the handle `CreateThread` returned (`none` = NULL,
i.e. OS-level creation failure); `Success` is returned only when it is
non-null. -/
def Thread.Start (t : Thread) (pFnThreadFunc : Option Nat) (pThreadParameter : Nat)
    (osThreadHandle : Option Nat) : Result × Thread :=
  if t.hThread = none ∧ pFnThreadFunc ≠ none then
    let t' : Thread :=
      { t with pParameter := pThreadParameter, pFnFunction := pFnThreadFunc,
               hThread := osThreadHandle }
    if t'.hThread ≠ none then (Result.Success, t') else (Result.Error, t')
  else (Result.Error, t)

/-- Embedding of `Thread::Join(timeoutInMs)`. The OS outcomes are passed
as oracles: `threadWaitStatus` is the status `WaitForSingleObject(hThread,
0)` returned (the zero-timeout aliveness probe), `eventWaitStatus` the
status the wait on the completion event `onExit` returned, and
`closeHandleOk` whether `CloseHandle(hThread)` returned nonzero. The
result starts as `Success` iff joinable; the event is waited on only if
the aliveness probe said `NotReady`; a failed `CloseHandle` downgrades a
successful wait to `Error`; and `Reset()` runs only when everything
succeeded. -/
def Thread.Join (t : Thread) (timeoutInMs : Nat) (threadWaitStatus eventWaitStatus : Nat)
    (closeHandleOk : Bool) : Result × Thread :=
  let result := if t.IsJoinable then Result.Success else Result.Error
  let result :=
    if result = Result.Success then
      if WaitObject threadWaitStatus 0 = Result.NotReady then
        WaitObject eventWaitStatus timeoutInMs
      else result
    else result
  let result :=
    if result = Result.Success then
      if closeHandleOk then result else Result.Error
    else result
  if result = Result.Success then (result, t.Reset) else (result, t)

/-- Modelled from the spec: the constant `kThreadNameMaxLength` (the size
of `SetNameRaw`'s conversion buffer, in wide characters) is declared in
the platform header, which is not under src/; the spec only requires it to
be a fixed maximum length. The value 64 stands in for it; no claim
depends on the particular value. -/
def kThreadNameMaxLength : Nat := 64

/-- Value of `(size_t)-1`, the error return of `mbstowcs`. -/
def MBSTOWCS_ERROR : Nat := 2 ^ 64 - 1

/-- Embedding of `Thread::SetNameRaw(pThreadName)`. `hModuleFound` is
whether `GetModuleHandle("kernel32.dll")` returned non-null, `pfnFound`
whether `GetProcAddress` located `SetThreadDescription`, `nameLen` is
`strlen(pThreadName)`, `encodeOk` whether `mbstowcs` succeeded (on
success it converts and returns `len = min(kThreadNameMaxLength,
nameLen)` characters; on an invalid multibyte sequence it returns
`(size_t)-1`), and `setOk` whether the located `SetThreadDescription`
call returned a succeeding HRESULT. The OS call is made only when the
converted count is strictly below the buffer size (which guarantees the
buffer stays null-terminated); otherwise `hResult` stays `E_FAIL`. -/
def Thread.SetNameRaw (hModuleFound pfnFound : Bool) (nameLen : Nat)
    (encodeOk setOk : Bool) : Result :=
  if hModuleFound then
    if pfnFound then
      let len := min kThreadNameMaxLength nameLen
      let converted := if encodeOk then len else MBSTOWCS_ERROR
      if converted < kThreadNameMaxLength then
        if setOk then Result.Success else Result.Error
      else Result.Error
    else Result.Unavailable
  else Result.Unavailable

/-- Embedding of `Mkdir(const char*)`. `pDir` is the directory path
(`none` = null pointer); `createOk` is whether the OS call
`CreateDirectory(pDir, NULL)` returned nonzero; `lastError` is what
`GetLastError()` reports when it failed. -/
def Mkdir (pDir : Option String) (createOk : Bool) (lastError : Nat) : Result :=
  match pDir with
  | none => Result.InvalidParameter
  | some _ =>
    if createOk then Result.Success
    else if lastError = ERROR_ALREADY_EXISTS then Result.Success
    else Result.FileIoError

/-! ## Theorems -/

/-- C4: `WaitObject` maps the platform wait status to exactly three
results: `Success` iff the status is `WAIT_OBJECT_0`, `NotReady` iff it is
`WAIT_TIMEOUT`, and `Error` for every other status (including
`WAIT_FAILED` and any unrecognized code); `Event::Wait` and
`Semaphore::Wait` return exactly this normalized result. -/
theorem waitObject_three_way (status tm : Nat) (e : Event) (s : Semaphore) :
    (WaitObject status tm = Result.Success ↔ status = WAIT_OBJECT_0)
    ∧ (WaitObject status tm = Result.NotReady ↔ status = WAIT_TIMEOUT)
    ∧ (status ≠ WAIT_OBJECT_0 → status ≠ WAIT_TIMEOUT →
        WaitObject status tm = Result.Error)
    ∧ WaitObject WAIT_FAILED tm = Result.Error
    ∧ Event.Wait e tm status = WaitObject status tm
    ∧ Semaphore.Wait s tm status = WaitObject status tm := by
  by_cases h1 : status = 0 <;> by_cases h2 : status = 258 <;>
    simp [WaitObject, Event.Wait, Semaphore.Wait, WAIT_OBJECT_0, WAIT_TIMEOUT,
      WAIT_FAILED, h1, h2]

/-- Witness for C4: concrete statuses exercising the timeout and failure
branches. -/
theorem waitObject_three_way_witness :
    WaitObject 258 1000 = Result.NotReady ∧ WaitObject WAIT_FAILED 0 = Result.Error :=
  ⟨(waitObject_three_way 258 1000 ⟨0⟩ ⟨0⟩).2.1.mpr rfl,
   (waitObject_three_way WAIT_FAILED 0 ⟨0⟩ ⟨0⟩).2.2.1 (by decide) (by decide)⟩

/-- C6: for both the 32-bit and the 64-bit width, `AtomicSubtract` of `n`
(the add of the wrapped negation) produces the same stored/returned value
as `AtomicAdd` of the mathematical negation `-n`, with two's-complement
wraparound; the `∀ n` covers the width-minimum values `-2^31` and `-2^63`,
and the congruences show the result is the true difference modulo the
width. In the model the stored value and the returned value coincide by
construction, so one equality covers both. -/
theorem atomicSubtract_eq_atomicAdd_neg (v n : Int) :
    AtomicSubtract32 v n = AtomicAdd32 v (-n)
    ∧ AtomicSubtract64 v n = AtomicAdd64 v (-n)
    ∧ AtomicSubtract32 v n % 2 ^ 32 = (v - n) % 2 ^ 32
    ∧ AtomicSubtract64 v n % 2 ^ 64 = (v - n) % 2 ^ 64 := by
  unfold AtomicSubtract32 AtomicAdd32 AtomicSubtract64 AtomicAdd64 wrap32 wrap64
  refine ⟨?_, ?_, ?_, ?_⟩ <;> omega

/-- C7: `AtomicLock::Unlock` transitions the lock word from 1 to 0, and
the fatal diagnostic (`DD_ASSERT_REASON`) fires exactly when the observed
prior value of the word is 0. -/
theorem atomicLock_unlock_spec (l : AtomicLock) :
    (l.m_lock = 1 → AtomicLock.Unlock l = (⟨0⟩, false))
    ∧ ((AtomicLock.Unlock l).2 = true ↔ l.m_lock = 0) := by
  unfold AtomicLock.Unlock InterlockedCompareExchange
  by_cases h : l.m_lock = 1 <;> simp [h]

/-- Witness for C7: unlocking a locked lock clears it without the
diagnostic; unlocking an unlocked lock fires the diagnostic. -/
theorem atomicLock_unlock_spec_witness :
    AtomicLock.Unlock ⟨1⟩ = (⟨0⟩, false) ∧ (AtomicLock.Unlock ⟨0⟩).2 = true :=
  ⟨(atomicLock_unlock_spec ⟨1⟩).1 rfl, (atomicLock_unlock_spec ⟨0⟩).2.mpr rfl⟩

/-- C10: `AtomicLock::Unlock` on an already-unlocked lock leaves the lock
word at 0 (the compare-exchange from 1 to 0 fails without writing) while
firing the diagnostic, and `Windows::ReleaseFastLock` on the same state
returns `Error` with the word likewise left at 0. -/
theorem atomicLock_double_unlock_state :
    AtomicLock.Unlock ⟨0⟩ = (⟨0⟩, true) ∧ ReleaseFastLock 0 = (Result.Error, 0) := by
  decide

/-- C8: `Mkdir` on a non-null path returns `Success` exactly when the OS
creates the directory or reports that it already exists; any other
creation failure yields `FileIoError` (never `Success`). -/
theorem mkdir_success_iff (d : String) (createOk : Bool) (lastError : Nat) :
    (Mkdir (some d) createOk lastError = Result.Success
      ↔ (createOk = true ∨ lastError = ERROR_ALREADY_EXISTS))
    ∧ (createOk = false → lastError ≠ ERROR_ALREADY_EXISTS →
        Mkdir (some d) createOk lastError = Result.FileIoError) := by
  unfold Mkdir
  cases createOk <;> by_cases h : lastError = ERROR_ALREADY_EXISTS <;> simp [h]

/-- Witness for C8: the already-exists error code yields `Success`; a
different error code yields `FileIoError`. -/
theorem mkdir_success_iff_witness :
    Mkdir (some "dir") false 183 = Result.Success
    ∧ Mkdir (some "dir") false 5 = Result.FileIoError :=
  ⟨(mkdir_success_iff "dir" false 183).1.mpr (Or.inr rfl),
   (mkdir_success_iff "dir" false 5).2 rfl (by decide)⟩

/-- C9: `Mkdir` with a null directory-path pointer returns
`InvalidParameter` regardless of any filesystem outcome (the OS oracles
are universally quantified, i.e. never consulted). -/
theorem mkdir_null_invalidParameter (createOk : Bool) (lastError : Nat) :
    Mkdir none createOk lastError = Result.InvalidParameter := rfl

/-- C1: `Thread::Start` returns `Error` and leaves the object untouched
whenever a live execution handle is already bound or the entry-function
pointer is null; when neither condition holds it returns `Success` iff the
OS thread creation returned a non-null handle. -/
theorem thread_start_spec (t : Thread) (pfn : Option Nat) (p : Nat) (os : Option Nat) :
    ((t.hThread ≠ none ∨ pfn = none) → Thread.Start t pfn p os = (Result.Error, t))
    ∧ (t.hThread = none → pfn ≠ none →
        ((Thread.Start t pfn p os).1 = Result.Success ↔ os ≠ none)) := by
  unfold Thread.Start
  constructor
  · intro h
    have hg : ¬(t.hThread = none ∧ pfn ≠ none) := by
      rintro ⟨h1, h2⟩
      rcases h with h | h
      · exact h h1
      · exact h2 h
    rw [if_neg hg]
  · intro h1 h2
    rw [if_pos ⟨h1, h2⟩]
    cases os <;> simp

/-- Witness for C1: starting an already-started thread fails without
touching the object; a fresh start with a valid entry function and a
successful OS creation succeeds. -/
theorem thread_start_spec_witness :
    Thread.Start ⟨some 1, none, 0⟩ (some 7) 0 (some 2) = (Result.Error, ⟨some 1, none, 0⟩)
    ∧ (Thread.Start ⟨none, none, 0⟩ (some 7) 0 (some 2)).1 = Result.Success :=
  ⟨(thread_start_spec ⟨some 1, none, 0⟩ (some 7) 0 (some 2)).1 (Or.inl (by decide)),
   ((thread_start_spec ⟨none, none, 0⟩ (some 7) 0 (some 2)).2 rfl (by decide)).mpr
     (by decide)⟩

/-- C2: `Thread::Join` on a never-started thread returns `Error` for every
timeout and every OS outcome without touching the object; `IsJoinable` is
true iff an execution handle is bound, a handle is bound exactly after a
successful `Start`, and a successful `Join` unbinds it. -/
theorem thread_join_unstarted_isJoinable (t : Thread) (tm hws ews : Nat) (c : Bool) :
    (t.IsJoinable = false → Thread.Join t tm hws ews c = (Result.Error, t))
    ∧ (t.IsJoinable = true ↔ t.hThread ≠ none)
    ∧ (∀ pfn p os, (Thread.Start t pfn p os).1 = Result.Success →
        (Thread.Start t pfn p os).2.IsJoinable = true)
    ∧ ((Thread.Join t tm hws ews c).1 = Result.Success →
        (Thread.Join t tm hws ews c).2.IsJoinable = false) := by
  refine ⟨fun h => ?_, ?_, fun pfn p os h => ?_, fun h => ?_⟩
  · simp [Thread.Join, h]
  · simp [Thread.IsJoinable, Option.isSome_iff_ne_none]
  · rcases t with ⟨ht, f0, p0⟩
    cases ht <;> rcases pfn with _ | a <;> rcases os with _ | b <;>
      simp_all [Thread.Start, Thread.IsJoinable]
  · cases hjo : t.IsJoinable <;>
      cases hpo : WaitObject hws 0 <;>
      cases heo : WaitObject ews tm <;>
      cases c <;>
      simp_all [Thread.Join, Thread.Reset, Thread.IsJoinable]

/-- Witness for C2: joining a thread that was never started returns
`Error` and leaves the state unchanged. -/
theorem thread_join_unstarted_isJoinable_witness :
    Thread.Join ⟨none, none, 0⟩ 5 0 0 true = (Result.Error, ⟨none, none, 0⟩) :=
  (thread_join_unstarted_isJoinable ⟨none, none, 0⟩ 5 0 0 true).1 rfl

/-- C3: when the thread is joinable and the wait phase succeeds (either
the zero-timeout probe found the thread already terminated, or the
completion-event wait returned `Success`) but closing the OS handle fails,
`Join` returns `Error` and does not reset the state: the handle stays
bound and `IsJoinable` remains true; the handle is cleared exactly on a
fully successful `Join`. -/
theorem thread_join_failed_close (t : Thread) (tm hws ews : Nat)
    (hj : t.IsJoinable = true)
    (hw : WaitObject hws 0 = Result.NotReady → WaitObject ews tm = Result.Success) :
    Thread.Join t tm hws ews false = (Result.Error, t)
    ∧ (Thread.Join t tm hws ews false).2.IsJoinable = true
    ∧ ∀ c, (Thread.Join t tm hws ews c).1 = Result.Success →
        (Thread.Join t tm hws ews c).2.hThread = none := by
  have hmain : Thread.Join t tm hws ews false = (Result.Error, t) := by
    unfold Thread.Join
    rw [hj]
    by_cases hp : WaitObject hws 0 = Result.NotReady
    · simp [hp, hw hp]
    · simp [hp]
  refine ⟨hmain, by rw [hmain]; exact hj, fun c h => ?_⟩
  cases hpo : WaitObject hws 0 <;>
    cases heo : WaitObject ews tm <;>
    cases c <;>
    simp_all [Thread.Join, Thread.Reset]

/-- Witness for C3: a joinable thread whose aliveness probe reports the
thread already terminated, with a failing `CloseHandle`, yields `Error`
with the handle still bound. -/
theorem thread_join_failed_close_witness :
    Thread.Join ⟨some 1, none, 0⟩ 0 0 0 false = (Result.Error, ⟨some 1, none, 0⟩) :=
  (thread_join_failed_close ⟨some 1, none, 0⟩ 0 0 0 rfl (by decide)).1

/-- Counterexample for C5 as stated: with the naming capability present
and a short, validly encoded name, a failing `SetThreadDescription` call
makes `SetNameRaw` return `Error`, not `Success` — the claim's "Success
otherwise" does not cover the OS naming call itself failing. -/
theorem setNameRaw_os_call_failure :
    Thread.SetNameRaw true true 5 true false = Result.Error
    ∧ Result.Error ≠ Result.Success := by decide

/-- C5 (amended): `SetNameRaw` returns `Unavailable` when the naming
function cannot be located, `Error` on conversion/encoding failure or when
the located naming call reports failure, and `Success` exactly when the
capability is present, the conversion succeeds with room left in the
buffer, and the naming call succeeds; every name of length at least
`kThreadNameMaxLength` is rejected with `Error` rather than overflowing,
and the conversion count is always capped at the buffer size. -/
theorem setNameRaw_spec (hM pfn : Bool) (nameLen : Nat) (encodeOk setOk : Bool) :
    ((hM = false ∨ pfn = false) →
        Thread.SetNameRaw hM pfn nameLen encodeOk setOk = Result.Unavailable)
    ∧ (hM = true → pfn = true → encodeOk = false →
        Thread.SetNameRaw hM pfn nameLen encodeOk setOk = Result.Error)
    ∧ (hM = true → pfn = true → encodeOk = true → nameLen < kThreadNameMaxLength →
        Thread.SetNameRaw hM pfn nameLen encodeOk setOk
          = (if setOk then Result.Success else Result.Error))
    ∧ (kThreadNameMaxLength ≤ nameLen →
        Thread.SetNameRaw hM pfn nameLen encodeOk setOk ≠ Result.Success)
    ∧ min kThreadNameMaxLength nameLen ≤ kThreadNameMaxLength := by
  refine ⟨?_, ?_, ?_, ?_, Nat.min_le_left _ _⟩
  · rintro (h | h)
    · subst h; simp [Thread.SetNameRaw]
    · subst h; cases hM <;> simp [Thread.SetNameRaw]
  · intro h1 h2 h3
    subst h1; subst h2; subst h3
    simp [Thread.SetNameRaw, MBSTOWCS_ERROR, kThreadNameMaxLength]
  · intro h1 h2 h3 h4
    subst h1; subst h2; subst h3
    have h4N : nameLen < 64 := h4
    simp only [Thread.SetNameRaw, kThreadNameMaxLength, if_true]
    rw [if_pos (by omega : min 64 nameLen < 64)]
  · intro hlen
    have hlenN : (64 : Nat) ≤ nameLen := hlen
    cases hM <;> cases pfn <;> cases encodeOk <;> cases setOk <;>
      simp [Thread.SetNameRaw, MBSTOWCS_ERROR, kThreadNameMaxLength] <;>
      omega

/-- Witness for C5: a short name with everything succeeding is accepted;
a 100-character name is rejected; a missing kernel32 module reports
`Unavailable`. -/
theorem setNameRaw_spec_witness :
    Thread.SetNameRaw true true 5 true true = Result.Success
    ∧ Thread.SetNameRaw true true 100 true true ≠ Result.Success
    ∧ Thread.SetNameRaw false true 5 true true = Result.Unavailable := by
  refine ⟨?_, ?_, ?_⟩
  · have h := (setNameRaw_spec true true 5 true true).2.2.1 rfl rfl rfl (by decide)
    simpa using h
  · exact (setNameRaw_spec true true 100 true true).2.2.2.1 (by decide)
  · exact (setNameRaw_spec false true 5 true true).1 (Or.inl rfl)

end DevDriver
